import Mathlib

/-!
Verification development for the feathers-redis adapter
(class RedisAdapter and class RedisService in src/adapter.ts and
src/index.ts, plus error-handler.ts and declarations.ts).

The adapter is shallowly embedded: JavaScript objects become
association lists over a JSON-like value type, the Redis store becomes
an explicit record of saved documents and issued TTL commands, and
each CRUD method becomes a pure function that also reports how many
store round trips it issued.  Store and transport failures, which in
the source arrive as thrown exceptions from redis-om, are injected
through an explicit fault parameter so that the catch blocks of the
source can be modelled faithfully.
-/

namespace FeathersRedis

/-- JSON-like values: the payloads, query values and record fields the
adapter manipulates.  Mirrors the JavaScript value universe the source
distinguishes (string, number, boolean, null, array, plain object).
Date values are not modelled; no claim concerns them. -/
inductive J where
  | str (s : String)
  | num (n : Int)
  | bool (b : Bool)
  | null
  | arr (xs : List J)
  | obj (fs : List (String × J))
deriving Repr

mutual

/-- Structural equality test on values (JavaScript strict equality on
scalars, extended structurally to arrays and objects; the adapter only
ever compares scalars this way). -/
def J.beq : J → J → Bool
  | .str a, .str b => a == b
  | .num a, .num b => a == b
  | .bool a, .bool b => a == b
  | .null, .null => true
  | .arr xs, .arr ys => J.beqList xs ys
  | .obj fs, .obj gs => J.beqFields fs gs
  | _, _ => false

/-- Pointwise equality test on value lists. -/
def J.beqList : List J → List J → Bool
  | [], [] => true
  | x :: xs, y :: ys => J.beq x y && J.beqList xs ys
  | _, _ => false

/-- Pointwise equality test on object field lists. -/
def J.beqFields : List (String × J) → List (String × J) → Bool
  | [], [] => true
  | (k, v) :: fs, (l, w) :: gs => k == l && J.beq v w && J.beqFields fs gs
  | _, _ => false

end

instance : BEq J := ⟨J.beq⟩

/-- JavaScript truthiness of a value, used by the source in checks such
as the falsy identity-field test in RedisAdapter._get. -/
def J.truthy : J → Bool
  | .str s => s ≠ ""
  | .num n => n ≠ 0
  | .bool b => b
  | .null => false
  | .arr _ => true
  | .obj _ => true

/-- Whether a value is a plain object.  The source tests this with
typeof value, Array.isArray and the null check before recursing into a
nested field scope. -/
def J.isObj : J → Bool
  | .obj _ => true
  | _ => false

/-- A record (a JavaScript object): field names to values.  Objects
built by the embedding are duplicate-free, matching JavaScript
objects. -/
abbrev Rec := List (String × J)

/-- Field lookup on a record: first matching key, as in a JavaScript
object (objects built here never duplicate keys). -/
def getField : Rec → String → Option J
  | [], _ => none
  | (k, v) :: rest, f => if k = f then some v else getField rest f

/-- JavaScript property assignment: overwrite the value at an existing
key in place, otherwise append the new property. -/
def setField (r : Rec) (k : String) (v : J) : Rec :=
  if r.any (fun kv => kv.1 == k) then
    r.map (fun kv => if kv.1 == k then (k, v) else kv)
  else
    r ++ [(k, v)]

/-- Object.assign(target, src): assign every property of src onto
target, left to right.  Used by RedisAdapter._patch to merge the
partial data into the fetched entity. -/
def assignFields (target src : Rec) : Rec :=
  src.foldl (fun acc kv => setField acc kv.1 kv.2) target

/-- Whether the value of a field is truthy (absent counts as falsy):
the source check idField truthy and entity index idField falsy. -/
def truthyAt (r : Rec) (f : String) : Bool :=
  match getField r f with
  | some v => v.truthy
  | none => false

/-- The field-selection projection the adapter applies when a $select
whitelist is present: every key not in the whitelist and different
from the identity field is deleted.  With no whitelist it is the
identity, as in the source where the deletion loop is guarded by
filters.$select. -/
def projectRec (select : Option (List String)) (idField : String) (r : Rec) : Rec :=
  match select with
  | none => r
  | some sel => r.filter (fun kv => sel.contains kv.1 || kv.1 == idField)

/-- One native search-builder operation, as appended by
RedisAdapter.redisQuery.  notEquals models the special-cased
where(column).not.equals(value) form; genericOp models the generic
where(column)[method](value) dispatch through the METHODS table. -/
inductive Pred where
  | equals (field : String) (v : J)
  | notEquals (field : String) (v : J)
  | genericOp (method : String) (field : String) (v : J)
  | orClause (sub : List Pred)
  | andClause (sub : List Pred)
  | sortBy (field : String) (asc : Bool)
deriving Repr

/-- The METHODS table of the source, verbatim: operator key to native
method name.  $in and $nin map to the empty string (the source comment
notes redis-om does not support them directly). -/
def METHODS : List (String × String) :=
  [("$ne", "not"), ("$in", ""), ("$nin", ""), ("$or", "or"), ("$and", "and"),
   ("$lt", "lt"), ("$lte", "lte"), ("$gt", "gt"), ("$gte", "gte")]

/-- METHODS indexed by key: undefined (none) for keys not in the
table, mirroring the JavaScript property access. -/
def lookupMethod (k : String) : Option String :=
  List.lookup k METHODS

mutual

/-- RedisAdapter.redisQuery: translate a feathers query object into
the list of operations applied to the native search builder.  The
parentKey argument is the nested field scope of the source. -/
def translateQuery : List (String × J) → Option String → List Pred
  | [], _ => []
  | (key, value) :: rest, parentKey =>
    translateEntry key value parentKey ++ translateQuery rest parentKey

/-- Translation of a single key of the query object, following the
branch structure of redisQuery: $or, $and and $sort first, then the
nested-object recursion, then the METHODS dispatch where a truthy
method name other than the $ne entry goes through the generic call and
everything else (unknown keys, and the falsy empty-string entries for
$in and $nin) is translated as an equality. -/
def translateEntry (key : String) (value : J) (parentKey : Option String) : List Pred :=
  let column := parentKey.getD key
  if key = "$or" then
    match value with
    | .arr items => translateOrItems items
    | _ => []
  else if key = "$and" then
    match value with
    | .arr items => [Pred.andClause (translateAndItems items)]
    | _ => []
  else if key = "$sort" then
    match value with
    | .obj pairs => pairs.map (fun kv => Pred.sortBy kv.1 (kv.2 == J.num 1))
    | _ => []
  else
    match value with
    | .obj fields => translateQuery fields (some key)
    | _ =>
      let method := (lookupMethod key).getD ""
      if method ≠ "" then
        if method = "not" then [Pred.notEquals column value]
        else [Pred.genericOp method column value]
      else
        [Pred.equals column value]

/-- The $or branch: each array item gets its own search.or call whose
sub search receives the item translation. -/
def translateOrItems : List J → List Pred
  | [] => []
  | item :: rest =>
    Pred.orClause (match item with | .obj fs => translateQuery fs none | _ => []) ::
      translateOrItems rest

/-- The $and branch: one search.and call whose sub search receives
every item translation in order. -/
def translateAndItems : List J → List Pred
  | [] => []
  | item :: rest =>
    (match item with | .obj fs => translateQuery fs none | _ => []) ++
      translateAndItems rest

end

/-- Numeric comparison dispatch for the generic builder methods lt,
lte, gt, gte.  Comparisons on non-numeric values are out of scope of
every claim and evaluate to false here. -/
def evalOp (m : String) (fieldVal : Option J) (v : J) : Bool :=
  match fieldVal, v with
  | some (.num x), .num y =>
    if m = "lt" then x < y
    else if m = "lte" then x ≤ y
    else if m = "gt" then x > y
    else if m = "gte" then x ≥ y
    else false
  | _, _ => false

mutual

/-- Evaluation of a builder operation sequence against one record,
left to right with an accumulator, matching how redis-om chains
clauses: plain clauses narrow the current query, an or clause unions
it with its sub query, an and clause narrows it with its sub query,
and sort directives do not affect matching. -/
def evalFrom : Bool → List Pred → Rec → Bool
  | acc, [], _ => acc
  | acc, p :: rest, r => evalFrom (evalStep acc p r) rest r

/-- Effect of one builder operation on the accumulated match. -/
def evalStep : Bool → Pred → Rec → Bool
  | acc, .equals f v, r => acc && (getField r f == some v)
  | acc, .notEquals f v, r => acc && !(getField r f == some v)
  | acc, .genericOp m f v, r => acc && evalOp m (getField r f) v
  | acc, .orClause sub, r => acc || evalFrom true sub r
  | acc, .andClause sub, r => acc && evalFrom true sub r
  | acc, .sortBy _ _, r => acc

end

/-- The external Redis store as the adapter sees it: saved documents
keyed by the save key, and the keys a TTL command was issued for.
Writes prepend; lookups take the first (latest) entry, so the list
behaves as a key-value map with history. -/
structure RedisStore where
  records : List (String × Rec)
  ttls : List (String × Nat)
deriving Repr

/-- A store with no documents and no TTLs. -/
def emptyStore : RedisStore := ⟨[], []⟩

/-- repository.save(key, record): overwrite the document at the key. -/
def storeSave (st : RedisStore) (key : String) (r : Rec) : RedisStore :=
  { st with records := (key, r) :: st.records }

/-- repository.fetch(key): redis-om returns an entity with no fields
when the key is absent (the protocol cannot distinguish a missing key
from an empty document, which is why _get re-checks the identity
field). -/
def fetchRec (st : RedisStore) (key : String) : Rec :=
  (List.lookup key st.records).getD []

/-- repository.expire(key, seconds): record the TTL command. -/
def storeExpire (st : RedisStore) (key : String) (secs : Nat) : RedisStore :=
  { st with ttls := (key, secs) :: st.ttls }

/-- repository.remove(key): delete the document at the key. -/
def storeRemove (st : RedisStore) (key : String) : RedisStore :=
  { st with records := st.records.filter (fun kv => !(kv.1 == key)) }

/-- Saving a batch of documents in order, as the array branch of
_create does. -/
def saveAll (st : RedisStore) (l : List (String × Rec)) : RedisStore :=
  l.foldl (fun s kv => storeSave s kv.1 kv.2) st

/-- Executing the built search: the matching documents together with
their keys (redis-om entities carry their key internally). -/
def searchAllKeyed (st : RedisStore) (ps : List Pred) : List (String × Rec) :=
  st.records.filter (fun kv => evalFrom true ps kv.2)

/-- search.return.all(): the matching documents. -/
def searchAll (st : RedisStore) (ps : List Pred) : List Rec :=
  (searchAllKeyed st ps).map Prod.snd

/-- search.page(offset, count): a window of the matching documents. -/
def searchPage (st : RedisStore) (ps : List Pred) (offset count : Nat) : List Rec :=
  ((searchAll st ps).drop offset).take count

/-- search.count(): the number of matching documents. -/
def searchCount (st : RedisStore) (ps : List Pred) : Nat :=
  (searchAll st ps).length

/-- The error kinds of the adapter (from feathers errors plus the
errorHandler wrapping): NotFound, BadRequest, MethodNotAllowed, the
GeneralError produced by errorHandler for a RedisOmError, and a raw
transport or store failure that propagates unwrapped. -/
inductive Err where
  | notFound (msg : String)
  | badRequest (msg : String)
  | methodNotAllowed (msg : String)
  | general (name msg : String)
  | storeFailure (msg : String)
deriving Repr, DecidableEq

/-- A fault thrown by the redis-om layer: either a RedisOmError
carrying a name and message, or some other error. -/
inductive FaultKind where
  | redisOm (name msg : String)
  | other (msg : String)
deriving Repr, DecidableEq

/-- errorHandler from src/error-handler.ts: a RedisOmError (which
always carries a name) is wrapped into a GeneralError with the
original name and message; any other error is rethrown unchanged. -/
def FaultKind.toErr : FaultKind → Err
  | .redisOm name msg => .general name msg
  | .other msg => .storeFailure msg

/-- Injectable faults of the external store: a failure while the query
builder is being populated (redisQuery), a failure while a search is
executed, and a failure of repository.fetch. -/
structure StoreFaults where
  builder : Option FaultKind
  search : Option FaultKind
  fetch : Option FaultKind
deriving Repr

/-- The store behaving normally. -/
def noFaults : StoreFaults := ⟨none, none, none⟩

/-- Pagination configuration of the service (paginate.default and
paginate.max). -/
structure Paginate where
  default? : Option Nat
  max? : Option Nat
deriving Repr

/-- getLimit from the feathers adapter-commons dependency, which
filterQuery calls: with a pagination configuration whose default or
max is truthy, the requested limit (or the default when absent) is
capped by max; otherwise the raw limit passes through. -/
def getLimit (limit : Option Nat) (paginate : Option Paginate) : Option Nat :=
  match paginate with
  | some p =>
    if p.default?.getD 0 ≠ 0 || p.max?.getD 0 ≠ 0 then
      let lower := limit.getD (p.default?.getD 0)
      some (match p.max? with | some m => min lower m | none => lower)
    else limit
  | none => limit

/-- The filter part extracted by RedisAdapter.filterQuery. -/
structure Filters where
  select : Option (List String)
  sort : Option (List (String × J))
  limit : Option Nat
  skip : Nat
deriving Repr

/-- A string-array query value, as $select carries. -/
def asStringList : J → List String
  | .arr xs => xs.filterMap (fun x => match x with | .str s => some s | _ => none)
  | _ => []

/-- A numeric query value, as $limit and $skip carry. -/
def asNat? : J → Option Nat
  | .num n => if 0 ≤ n then some n.toNat else none
  | _ => none

/-- Keys destructured away from the query by filterQuery. -/
def filterKeys : List String := ["$select", "$sort", "$limit", "$skip"]

/-- RedisAdapter.filterQuery: split the raw query object into the
filters ($select, $sort, $limit after getLimit, $skip defaulting to
zero) and the remaining query entries. -/
def filterQuery (paginate : Option Paginate) (query : List (String × J)) :
    Filters × List (String × J) :=
  let sel := (List.lookup "$select" query).map asStringList
  let sort := (List.lookup "$sort" query).map
    (fun j => match j with | .obj fs => fs | _ => [])
  let lim := getLimit ((List.lookup "$limit" query).bind asNat?) paginate
  let skip := ((List.lookup "$skip" query).bind asNat?).getD 0
  (⟨sel, sort, lim, skip⟩, query.filter (fun kv => !(filterKeys.contains kv.1)))

/-- JavaScript truthiness of the extracted $limit (undefined and zero
are falsy). -/
def limTruthy : Option Nat → Bool
  | none => false
  | some n => n ≠ 0

/-- The extra sortBy operations _find itself appends from
params.query.$sort (lines 201 to 208 of the adapter), on top of
whatever redisQuery already produced. -/
def findSortPreds (query : List (String × J)) : List Pred :=
  match List.lookup "$sort" query with
  | some (.obj fs) => fs.map (fun kv => Pred.sortBy kv.1 (kv.2 == J.num 1))
  | _ => []

/-- The value RedisAdapter._find resolves to: a plain list, or the
pagination envelope with total, limit, skip and data. -/
inductive FindResult where
  | list (rs : List Rec)
  | paged (total : Nat) (limit : Option Nat) (skip : Nat) (data : List Rec)
deriving Repr

/-- The outcome of _find together with the number of search round
trips (page, count, return.all) it issued against the store. -/
structure FindOut where
  result : Except Err FindResult
  queries : Nat
deriving Repr

/-- RedisAdapter._find, including the branch ladder of the
non-paginated path: limit truthy and no skip; limit and skip; skip
only (a page plus a count round trip); limit exactly zero returning
early with no store query; otherwise return.all.  The $select
projection applies to the fall-through branches, not to the early
zero-limit return, and the paginated path issues a page and a count
round trip without projecting. -/
def _find (idField : String) (paginate : Option Paginate) (paramsPaginateFalse : Bool)
    (faults : StoreFaults) (st : RedisStore) (query : List (String × J)) : FindOut :=
  let fq := filterQuery paginate query
  let filters := fq.1
  let rest := fq.2
  let paginationDisabled := paramsPaginateFalse ||
    (match paginate with
     | none => true
     | some p => p.default?.getD 0 == 0)
  let builderErr : Option Err :=
    if rest.length ≠ 0 then faults.builder.map FaultKind.toErr else none
  match builderErr with
  | some e => ⟨.error e, 0⟩
  | none =>
    let preds := translateQuery rest none ++ findSortPreds query
    if paginationDisabled then
      let branch : Option (Nat × List Rec) :=
        if limTruthy filters.limit && filters.skip == 0 then
          some (1, searchPage st preds 0 (filters.limit.getD 0))
        else if limTruthy filters.limit && filters.skip != 0 then
          some (1, searchPage st preds filters.skip (filters.limit.getD 0))
        else if !(limTruthy filters.limit) && filters.skip != 0 then
          some (2, searchPage st preds filters.skip (searchCount st preds))
        else if filters.limit == some 0 then
          none
        else
          some (1, searchAll st preds)
      match branch with
      | none => ⟨.ok (.list []), 0⟩
      | some (n, results) =>
        match faults.search with
        | some fk => ⟨.error fk.toErr, 1⟩
        | none =>
          ⟨.ok (.list (results.map (projectRec filters.select idField))), n⟩
    else
      match faults.search with
      | some fk => ⟨.error fk.toErr, 1⟩
      | none =>
        ⟨.ok (.paged (searchCount st preds) filters.limit filters.skip
          (searchPage st preds filters.skip (filters.limit.getD 0))), 2⟩

/-- The NotFound message of _get, _update and company ("No record
found for id ..."). -/
def noRecordMsg (id : String) : String := "No record found for id " ++ id

/-- The check and projection _get performs after obtaining an entity:
when the identity field name is truthy and the value of that field on
the entity is falsy or absent, the entity counts as missing; otherwise
the $select projection is applied. -/
def postFetchCheck (idField : String) (select : Option (List String)) (id : String)
    (kr : String × Rec) : Except Err (String × Rec) :=
  if idField ≠ "" && !(truthyAt kr.2 idField) then
    .error (.notFound (noRecordMsg id))
  else
    .ok (kr.1, projectRec select idField kr.2)

/-- The body of the try block of RedisAdapter._get, before its
catch-all: with a non-empty filter query, build the query, add the
identity equality, run the search and take the first result (none
found is NotFound); with no filter query, fetch by key directly.  The
result keeps the storage key the entity was found under (the hidden
entity id redis-om attaches), which _patch and _remove rely on.  The
second component counts store round trips. -/
def _getRaw (idField : String) (query : List (String × J)) (select : Option (List String))
    (faults : StoreFaults) (st : RedisStore) (id : String) :
    Except Err (String × Rec) × Nat :=
  if query.length ≠ 0 then
    match faults.builder with
    | some fk => (.error fk.toErr, 0)
    | none =>
      match faults.search with
      | some fk => (.error fk.toErr, 1)
      | none =>
        let preds := translateQuery query none ++ [Pred.equals idField (J.str id)]
        match searchAllKeyed st preds with
        | [] => (.error (.notFound (noRecordMsg id)), 1)
        | kr :: _ => (postFetchCheck idField select id kr, 1)
  else
    match faults.fetch with
    | some fk => (.error fk.toErr, 1)
    | none => (postFetchCheck idField select id (id, fetchRec st id), 1)

/-- RedisAdapter._get with its catch-all, still carrying the storage
key: every failure of the body, whatever its kind, is replaced by
NotFound for the requested id. -/
def _getEntity (idField : String) (query : List (String × J)) (select : Option (List String))
    (faults : StoreFaults) (st : RedisStore) (id : String) :
    Except Err (String × Rec) × Nat :=
  match _getRaw idField query select faults st id with
  | (.ok kr, n) => (.ok kr, n)
  | (.error _, n) => (.error (.notFound (noRecordMsg id)), n)

/-- RedisAdapter._get as the caller sees it: the entity alone. -/
def _get (idField : String) (query : List (String × J)) (select : Option (List String))
    (faults : StoreFaults) (st : RedisStore) (id : String) : Except Err Rec × Nat :=
  match _getEntity idField query select faults st id with
  | (.ok kr, n) => (.ok kr.2, n)
  | (.error e, n) => (.error e, n)

/-- The object the _create branches save: the object literal that
declares the identity field first, bound to the generated uuid, and
then spreads the caller payload over it.  Because the spread comes
second, a payload entry for the identity field overwrites the
generated value; the property keeps its first position.  Payloads are
duplicate-free, as every JavaScript object is. -/
def buildCreateRec (idField : String) (uuid : String) (item : Rec) : Rec :=
  (idField, (getField item idField).getD (J.str uuid)) ::
    item.filter (fun kv => !(kv.1 == idField))

/-- The string the expire overload extracts from an entity: the value
of the configured identity field (claims only exercise string
identities). -/
def keyString : Option J → String
  | some (.str s) => s
  | _ => ""

/-- Outcome of an operation that yields one record, with the updated
store and the number of store round trips issued. -/
structure MutOut where
  result : Except Err Rec
  store : RedisStore
  commands : Nat
deriving Repr

/-- Outcome of an operation that yields a list of records. -/
structure MultiOut where
  result : Except Err (List Rec)
  store : RedisStore
  commands : Nat
deriving Repr

/-- The array branch of RedisAdapter._create: each item is saved under
a freshly generated uuid (the uuids argument supplies the randomUUID
values in order) with the identity field spread as in buildCreateRec;
the saved entities are then $select projected and returned.  This
branch issues one save per item and, faithfully to the source, no
expire command: the expiration block of _create sits after the early
return of the array branch, so a configured default TTL is never
applied to batch-created records. -/
def _createMany (idField : String) (expiration : Option Nat) (select : Option (List String))
    (uuids : List String) (items : List Rec) (st : RedisStore) : MultiOut :=
  let saved := (uuids.zip items).map (fun p => (p.1, buildCreateRec idField p.1 p.2))
  let st2 := saveAll st saved
  ⟨.ok (saved.map (fun kv => projectRec select idField kv.2)), st2, saved.length⟩

/-- The single branch of RedisAdapter._create: save the built object
under the generated uuid, apply the $select projection, and, when the
adapter has a truthy default expiration, issue an expire command for
the key read from the identity field of the (projected) entity. -/
def _createSingle (idField : String) (expiration : Option Nat) (select : Option (List String))
    (uuid : String) (item : Rec) (st : RedisStore) : MutOut :=
  let built := buildCreateRec idField uuid item
  let st2 := storeSave st uuid built
  let entity := projectRec select idField built
  match expiration with
  | some n =>
    if n ≠ 0 then
      ⟨.ok entity, storeExpire st2 (keyString (getField entity idField)) n, 2⟩
    else ⟨.ok entity, st2, 1⟩
  | none => ⟨.ok entity, st2, 1⟩

/-- RedisAdapter._patch.  A null id (modelled as none) fails with
MethodNotAllowed before any store access.  Otherwise the current
entity is resolved through _get (including its $select projection and
its NotFound normalization), the partial data is merged onto it with
Object.assign, and the merged entity is saved back under the key it
was fetched from.  The adapter accepts a refreshExpiration option at
this interface and a configured default expiration, but the source of
_patch reads neither, so they are parameters this function ignores:
no expire command is ever issued here. -/
def _patch (idField : String) (expiration : Option Nat) (refreshExpiration : Bool)
    (query : List (String × J)) (select : Option (List String))
    (faults : StoreFaults) (st : RedisStore)
    (id : Option String) (data : Rec) : MutOut :=
  match id with
  | none => ⟨.error (.methodNotAllowed "Cannot patch multiple entries without an ID"), st, 0⟩
  | some i =>
    match _getEntity idField query select faults st i with
    | (.error e, n) => ⟨.error e, st, n⟩
    | (.ok (key, entity), n) =>
      let merged := assignFields entity data
      ⟨.ok merged, storeSave st key merged, n + 1⟩

/-- RedisAdapter._update.  A null id fails with BadRequest.  With a
non-empty filter query the existence check searches for the filter
plus the identity equality (no matches is NotFound); otherwise it
fetches by key and applies the falsy-identity-field check.  The
replacement then saves the raw input data under the id, full
replacement, and the returned entity is the $select projection of it.
As with _patch, refreshExpiration and the default expiration are
accepted but never read: no expire command is issued. -/
def _update (idField : String) (expiration : Option Nat) (refreshExpiration : Bool)
    (query : List (String × J)) (select : Option (List String))
    (faults : StoreFaults) (st : RedisStore)
    (id : Option String) (data : Rec) : MutOut :=
  match id with
  | none => ⟨.error (.badRequest "You must provide an ID to update an entry"), st, 0⟩
  | some i =>
    let checked : Except Err Unit × Nat :=
      if query.length ≠ 0 then
        match faults.builder with
        | some fk => (.error fk.toErr, 0)
        | none =>
          match faults.search with
          | some fk => (.error fk.toErr, 1)
          | none =>
            let preds := translateQuery query none ++ [Pred.equals idField (J.str i)]
            match searchAllKeyed st preds with
            | [] => (.error (.notFound (noRecordMsg i)), 1)
            | _ :: _ => (.ok (), 1)
      else
        match faults.fetch with
        | some fk => (.error fk.toErr, 1)
        | none =>
          if idField ≠ "" && !(truthyAt (fetchRec st i) idField) then
            (.error (.notFound (noRecordMsg i)), 1)
          else (.ok (), 1)
    match checked with
    | (.error e, n) => ⟨.error e, st, n⟩
    | (.ok _, n) =>
      ⟨.ok (projectRec select idField data), storeSave st i data, n + 1⟩

/-- RedisAdapter._remove.  A null id fails with MethodNotAllowed
before any store access; otherwise the existing entity is resolved
through _get and then the document at the id is deleted, returning the
pre-deletion (projected) entity. -/
def _remove (idField : String) (query : List (String × J)) (select : Option (List String))
    (faults : StoreFaults) (st : RedisStore) (id : Option String) : MutOut :=
  match id with
  | none => ⟨.error (.methodNotAllowed "Cannot remove multiple entries without an ID"), st, 0⟩
  | some i =>
    match _getEntity idField query select faults st i with
    | (.error e, n) => ⟨.error e, st, n⟩
    | (.ok (_, entity), n) => ⟨.ok entity, storeRemove st i, n + 1⟩

/-- RedisService.create on an array argument: the public wrapper
checks allowsMulti (membership of the create method in the multi
allow-list option) and fails with MethodNotAllowed before any store
access when it is not allowed; otherwise it delegates to _create,
which never consults the allow-list. -/
def serviceCreateMany (multi : List String) (idField : String) (expiration : Option Nat)
    (select : Option (List String)) (uuids : List String) (items : List Rec)
    (st : RedisStore) : MultiOut :=
  if multi.contains "create" then
    _createMany idField expiration select uuids items st
  else
    ⟨.error (.methodNotAllowed "Can not create multiple entries"), st, 0⟩

/-! ### Helper lemmas about the store model -/

/-- Projection without a whitelist is the identity. -/
theorem projectRec_none (idField : String) (r : Rec) : projectRec none idField r = r := rfl

/-- Fetching the key just saved yields the saved document. -/
theorem fetchRec_storeSave_self (st : RedisStore) (k : String) (r : Rec) :
    fetchRec (storeSave st k r) k = r := by
  simp [fetchRec, storeSave, List.lookup]

/-- Saving under one key leaves every other key unchanged. -/
theorem fetchRec_storeSave_ne (st : RedisStore) (k1 k : String) (r : Rec) (h : k ≠ k1) :
    fetchRec (storeSave st k1 r) k = fetchRec st k := by
  have hb : (k == k1) = false := beq_eq_false_iff_ne.mpr h
  simp [fetchRec, storeSave, List.lookup, hb]

/-- A batch save leaves keys outside the batch unchanged. -/
theorem saveAll_fetch_not_mem (l : List (String × Rec)) (st : RedisStore) (k : String)
    (h : k ∉ l.map Prod.fst) : fetchRec (saveAll st l) k = fetchRec st k := by
  induction l generalizing st with
  | nil => rfl
  | cons kv t ih =>
    simp only [List.map_cons, List.mem_cons] at h
    push_neg at h
    simp only [saveAll, List.foldl_cons]
    rw [show (List.foldl (fun s kv => storeSave s kv.1 kv.2) (storeSave st kv.1 kv.2) t)
        = saveAll (storeSave st kv.1 kv.2) t from rfl]
    rw [ih (storeSave st kv.1 kv.2) h.2]
    exact fetchRec_storeSave_ne st kv.1 k kv.2 h.1

/-- With duplicate-free keys, a batch save makes every saved pair
retrievable. -/
theorem saveAll_fetch_mem (l : List (String × Rec)) (st : RedisStore) (k : String) (r : Rec)
    (hnd : (l.map Prod.fst).Nodup) (hm : (k, r) ∈ l) :
    fetchRec (saveAll st l) k = r := by
  induction l generalizing st with
  | nil => cases hm
  | cons kv t ih =>
    simp only [List.map_cons, List.nodup_cons] at hnd
    simp only [saveAll, List.foldl_cons]
    rw [show (List.foldl (fun s kv => storeSave s kv.1 kv.2) (storeSave st kv.1 kv.2) t)
        = saveAll (storeSave st kv.1 kv.2) t from rfl]
    rcases List.mem_cons.mp hm with heq | hmem
    · cases heq
      rw [saveAll_fetch_not_mem t (storeSave st k r) k hnd.1]
      exact fetchRec_storeSave_self st k r
    · exact ih (storeSave st kv.1 kv.2) hnd.2 hmem

/-- A requested limit of zero passes through getLimit as zero for
every pagination configuration: with an active configuration it is
capped by max, and the cap of zero is zero. -/
theorem getLimit_zero (p : Option Paginate) : getLimit (some 0) p = some 0 := by
  cases p with
  | none => rfl
  | some q => cases hq : q.max? <;> simp [getLimit, hq]

/-! ### Claims -/

/-- Claim C3, counterexample: a filter with a membership operator does
not fail with a not-implemented error, and it is translated into
another predicate, namely an equality on the field whose value is the
whole list.  The METHODS entry for the membership operators is the
empty string, which is falsy, so redisQuery falls through to its
equality branch. -/
theorem c3_in_translates_to_equality_counterexample :
    translateQuery [("age", J.obj [("$in", J.arr [J.num 1, J.num 2])])] none
      = [Pred.equals "age" (J.arr [J.num 1, J.num 2])]
    ∧ translateQuery [("age", J.obj [("$nin", J.arr [J.num 3])])] none
      = [Pred.equals "age" (J.arr [J.num 3])] :=
  ⟨rfl, rfl⟩

/-- Claim C3, amended: for every field and every list value, a $in or
$nin clause is translated as an equality predicate on the field with
the entire list as its value; no not-implemented error is raised,
because the METHODS table maps both operators to the empty string,
which fails the truthiness test guarding operator dispatch. -/
theorem c3_membership_fallthrough_amended (f : String) (xs : List J)
    (hf1 : f ≠ "$or") (hf2 : f ≠ "$and") (hf3 : f ≠ "$sort") :
    translateQuery [(f, J.obj [("$in", J.arr xs)])] none = [Pred.equals f (J.arr xs)]
    ∧ translateQuery [(f, J.obj [("$nin", J.arr xs)])] none = [Pred.equals f (J.arr xs)] := by
  constructor <;>
    simp [translateQuery, translateEntry, lookupMethod, METHODS, List.lookup, hf1, hf2, hf3]

/-- Witness for the amended C3 claim at a concrete field and list. -/
theorem c3_membership_fallthrough_amended_witness :
    translateQuery [("age", J.obj [("$in", J.arr [J.num 7])])] none
      = [Pred.equals "age" (J.arr [J.num 7])]
    ∧ translateQuery [("age", J.obj [("$nin", J.arr [J.num 7])])] none
      = [Pred.equals "age" (J.arr [J.num 7])] :=
  c3_membership_fallthrough_amended "age" [J.num 7] (by decide) (by decide) (by decide)

/-- Claim C4, counterexample: a create whose payload carries a value
for the identity field does not get a freshly generated identity in
the stored and returned record.  With generated uuid u1 and payload
carrying entityId mine, the returned entity and the document stored
under key u1 both carry entityId mine, because the payload is spread
after the generated identity property and overwrites it. -/
theorem c4_caller_id_honored_counterexample :
    (_createSingle "entityId" none none "u1"
        [("entityId", J.str "mine"), ("name", J.str "x")] emptyStore).result
      = Except.ok [("entityId", J.str "mine"), ("name", J.str "x")]
    ∧ getField (fetchRec (_createSingle "entityId" none none "u1"
        [("entityId", J.str "mine"), ("name", J.str "x")] emptyStore).store "u1") "entityId"
      = some (J.str "mine") :=
  ⟨rfl, rfl⟩

/-- Claim C4, amended: every created record is stored under the
freshly generated identifier, and its identity field defaults to that
identifier, but a caller-supplied identity-field value in the payload
overwrites the generated value in the stored and returned record,
because the payload is spread after the generated identity property. -/
theorem c4_create_identity_amended (idField : String) (uuid : String) (item : Rec)
    (st : RedisStore) :
    fetchRec (_createSingle idField none none uuid item st).store uuid
      = buildCreateRec idField uuid item
    ∧ getField (buildCreateRec idField uuid item) idField
      = some ((getField item idField).getD (J.str uuid)) := by
  constructor
  · exact fetchRec_storeSave_self st uuid (buildCreateRec idField uuid item)
  · simp [buildCreateRec, getField]

/-- Claim C8: a $ne clause is translated through the special-cased
negated-equality form of the builder, the four comparison operators go
through the generic method dispatch of the METHODS table, and a field
key that is no recognized operator is translated as an equality. -/
theorem c8_operator_dispatch (f : String) (v : J)
    (hf1 : f ≠ "$or") (hf2 : f ≠ "$and") (hf3 : f ≠ "$sort") (hv : v.isObj = false)
    (k : String) (w : J) (hk : lookupMethod k = none)
    (hk1 : k ≠ "$or") (hk2 : k ≠ "$and") (hk3 : k ≠ "$sort") (hw : w.isObj = false) :
    translateQuery [(f, J.obj [("$ne", v)])] none = [Pred.notEquals f v]
    ∧ translateQuery [(f, J.obj [("$lt", v)])] none = [Pred.genericOp "lt" f v]
    ∧ translateQuery [(f, J.obj [("$lte", v)])] none = [Pred.genericOp "lte" f v]
    ∧ translateQuery [(f, J.obj [("$gt", v)])] none = [Pred.genericOp "gt" f v]
    ∧ translateQuery [(f, J.obj [("$gte", v)])] none = [Pred.genericOp "gte" f v]
    ∧ translateQuery [(k, w)] none = [Pred.equals k w] := by
  refine ⟨?_, ?_, ?_, ?_, ?_, ?_⟩
  · cases v <;> simp [translateQuery, translateEntry, lookupMethod, METHODS, List.lookup,
      hf1, hf2, hf3] <;> simp_all [J.isObj]
  · cases v <;> simp [translateQuery, translateEntry, lookupMethod, METHODS, List.lookup,
      hf1, hf2, hf3] <;> simp_all [J.isObj]
  · cases v <;> simp [translateQuery, translateEntry, lookupMethod, METHODS, List.lookup,
      hf1, hf2, hf3] <;> simp_all [J.isObj]
  · cases v <;> simp [translateQuery, translateEntry, lookupMethod, METHODS, List.lookup,
      hf1, hf2, hf3] <;> simp_all [J.isObj]
  · cases v <;> simp [translateQuery, translateEntry, lookupMethod, METHODS, List.lookup,
      hf1, hf2, hf3] <;> simp_all [J.isObj]
  · cases w <;> simp [translateQuery, translateEntry, lookupMethod, hk1, hk2, hk3,
      show List.lookup k METHODS = none from hk] <;> simp_all [J.isObj]

/-- Witness for C8 at concrete inputs: field age with value 5, and the
unrecognized key name with a string value. -/
theorem c8_operator_dispatch_witness :
    translateQuery [("age", J.obj [("$ne", J.num 5)])] none = [Pred.notEquals "age" (J.num 5)]
    ∧ translateQuery [("age", J.obj [("$lt", J.num 5)])] none
      = [Pred.genericOp "lt" "age" (J.num 5)]
    ∧ translateQuery [("age", J.obj [("$lte", J.num 5)])] none
      = [Pred.genericOp "lte" "age" (J.num 5)]
    ∧ translateQuery [("age", J.obj [("$gt", J.num 5)])] none
      = [Pred.genericOp "gt" "age" (J.num 5)]
    ∧ translateQuery [("age", J.obj [("$gte", J.num 5)])] none
      = [Pred.genericOp "gte" "age" (J.num 5)]
    ∧ translateQuery [("name", J.str "x")] none = [Pred.equals "name" (J.str "x")] :=
  c8_operator_dispatch "age" (J.num 5) (by decide) (by decide) (by decide) rfl
    "name" (J.str "x") rfl (by decide) (by decide) (by decide) rfl

/-- Claim C1, failing-input evaluation: on a store holding the record
with key a, a patch and an update that pass a truthy refreshExpiration
option, on an adapter configured with a default expiration of ten
seconds, succeed but issue no TTL command at all: the resulting store
has an empty TTL log, because the source of _patch and _update never
reads the refreshExpiration option nor the configured expiration.
This contradicts the README expiration table and the repository
tests, which document that a truthy refreshExpiration refreshes the
default TTL on update and patch. -/
theorem c1_refresh_expiration_ignored_bug :
    ((_patch "uuid" (some 10) true [] none noFaults
        ⟨[("a", [("uuid", J.str "a"), ("name", J.str "N")])], []⟩
        (some "a") [("name", J.str "M")]).store.ttls = [])
    ∧ ((_patch "uuid" (some 10) true [] none noFaults
        ⟨[("a", [("uuid", J.str "a"), ("name", J.str "N")])], []⟩
        (some "a") [("name", J.str "M")]).result
      = Except.ok [("uuid", J.str "a"), ("name", J.str "M")])
    ∧ ((_update "uuid" (some 10) true [] none noFaults
        ⟨[("a", [("uuid", J.str "a"), ("name", J.str "N")])], []⟩
        (some "a") [("uuid", J.str "a"), ("name", J.str "M")]).store.ttls = [])
    ∧ ((_update "uuid" (some 10) true [] none noFaults
        ⟨[("a", [("uuid", J.str "a"), ("name", J.str "N")])], []⟩
        (some "a") [("uuid", J.str "a"), ("name", J.str "M")]).result
      = Except.ok [("uuid", J.str "a"), ("name", J.str "M")]) :=
  ⟨rfl, rfl, rfl, rfl⟩

/-- Claim C2, failing-input evaluation: a batch create of two items on
an adapter with a default expiration of one second writes both records
but issues no TTL command for either (the TTL log of the resulting
store is empty), while the same adapter applies the TTL on a
single-item create.  The expiration block of _create sits below the
early return of the array branch, so batch-created records never
receive the default TTL; the repository test named
"should apply default expiration to batch created items" asserts the
opposite. -/
theorem c2_batch_create_no_ttl_bug :
    ((_createMany "uuid" (some 1) none ["u1", "u2"]
        [[("name", J.str "A")], [("name", J.str "B")]] emptyStore).store.ttls = [])
    ∧ ((_createMany "uuid" (some 1) none ["u1", "u2"]
        [[("name", J.str "A")], [("name", J.str "B")]] emptyStore).result
      = Except.ok [[("uuid", J.str "u1"), ("name", J.str "A")],
          [("uuid", J.str "u2"), ("name", J.str "B")]])
    ∧ ((_createSingle "uuid" (some 1) none "u1" [("name", J.str "A")] emptyStore).store.ttls
      = [("u1", 1)]) :=
  ⟨rfl, rfl, rfl⟩

/-- Claim C5, counterexample: with pagination disabled, a find for
limit zero and skip two on a store of three matching records does not
return an empty list and does not avoid the store: the skip-only
branch of _find takes precedence over the zero-limit branch, issues a
page and a count round trip, and returns the records from the skip
offset on.  Moreover with an active pagination configuration the
zero-limit find issues the page and count round trips of the paginated
path, so no store query is not guaranteed there either. -/
theorem c5_limit_zero_counterexample :
    (_find "uuid" none false noFaults
        ⟨[("a", [("uuid", J.str "a")]), ("b", [("uuid", J.str "b")]),
          ("c", [("uuid", J.str "c")])], []⟩
        [("$limit", J.num 0), ("$skip", J.num 2)]
      = ⟨Except.ok (FindResult.list [[("uuid", J.str "c")]]), 2⟩)
    ∧ (_find "uuid" (some ⟨some 10, none⟩) false noFaults
        ⟨[("a", [("uuid", J.str "a")])], []⟩ [("$limit", J.num 0)]
      = ⟨Except.ok (FindResult.paged 1 (some 0) 0 []), 2⟩) :=
  ⟨rfl, rfl⟩

/-- Claim C5, amended: a find whose query carries a limit of exactly
zero returns an empty list without issuing any store query, provided
pagination is disabled and no skip is requested; with a nonzero skip
or an active pagination configuration the zero limit does not
short-circuit and store queries are issued. -/
theorem c5_limit_zero_amended (idField : String) (paginate : Option Paginate)
    (paramsPaginateFalse : Bool) (st : RedisStore)
    (hdis : (paramsPaginateFalse ||
      (match paginate with
       | none => true
       | some p => p.default?.getD 0 == 0)) = true) :
    _find idField paginate paramsPaginateFalse noFaults st [("$limit", J.num 0)]
      = ⟨Except.ok (FindResult.list []), 0⟩ := by
  simp [_find, filterQuery, filterKeys, asNat?, getLimit_zero, hdis, limTruthy,
    List.lookup, noFaults]

/-- Witness for the amended C5 claim: pagination off, empty store. -/
theorem c5_limit_zero_amended_witness :
    _find "uuid" none false noFaults emptyStore [("$limit", J.num 0)]
      = ⟨Except.ok (FindResult.list []), 0⟩ :=
  c5_limit_zero_amended "uuid" none false emptyStore rfl

/-- Claim C6, failing-input evaluation: a patch by id with a $select
whitelist of the name field, on a stored record that also carries an
age field not mentioned in the partial data, drops the age field from
the store: _patch merges the partial data into the entity that _get
already projected down to the whitelist and saves that truncated
entity back, so a field of the previous record that is neither in the
whitelist nor in the partial data is lost rather than retained. -/
theorem c6_patch_select_drops_fields_bug :
    (getField (fetchRec (_patch "uuid" none false [] (some ["name"]) noFaults
        ⟨[("a", [("uuid", J.str "a"), ("name", J.str "N"), ("age", J.num 5)])], []⟩
        (some "a") [("name", J.str "M")]).store "a") "age" = none)
    ∧ (getField (fetchRec
        (⟨[("a", [("uuid", J.str "a"), ("name", J.str "N"), ("age", J.num 5)])], []⟩ :
          RedisStore) "a") "age" = some (J.num 5))
    ∧ ((_patch "uuid" none false [] (some ["name"]) noFaults
        ⟨[("a", [("uuid", J.str "a"), ("name", J.str "N"), ("age", J.num 5)])], []⟩
        (some "a") [("name", J.str "M")]).result
      = Except.ok [("uuid", J.str "a"), ("name", J.str "M")]) :=
  ⟨rfl, rfl, rfl⟩

/-- Claim C7: every outcome of _get is either a success or the
NotFound error for the requested id, whatever the identity field, the
filter query, the selection, the injected store and transport faults,
the store contents and the id: zero matches, a falsy identity field
and arbitrary builder, search or fetch failures are all normalized to
NotFound by the catch-all of _get. -/
theorem c7_get_errors_normalized_notfound (idField : String) (query : List (String × J))
    (select : Option (List String)) (faults : StoreFaults) (st : RedisStore) (id : String) :
    (∃ r, (_get idField query select faults st id).1 = Except.ok r)
    ∨ (_get idField query select faults st id).1
      = Except.error (Err.notFound (noRecordMsg id)) := by
  rcases h : _getRaw idField query select faults st id with ⟨res, n⟩
  cases res with
  | ok kr => exact Or.inl ⟨kr.2, by simp [_get, _getEntity, h]⟩
  | error e => exact Or.inr (by simp [_get, _getEntity, h])

/-- Claim C9: a patch with a null id and a remove with a null id fail
with MethodNotAllowed leaving the store untouched and issuing zero
store commands, and a service-level batch create without create in the
multi allow-list fails with MethodNotAllowed, also before any store
access. -/
theorem c9_null_id_and_multi_guards (idField : String) (expiration : Option Nat)
    (refreshExpiration : Bool) (query : List (String × J)) (select : Option (List String))
    (faults : StoreFaults) (st : RedisStore) (data : Rec)
    (multi : List String) (uuids : List String) (items : List Rec)
    (hmulti : "create" ∉ multi) :
    _patch idField expiration refreshExpiration query select faults st none data
      = ⟨Except.error (Err.methodNotAllowed "Cannot patch multiple entries without an ID"),
          st, 0⟩
    ∧ _remove idField query select faults st none
      = ⟨Except.error (Err.methodNotAllowed "Cannot remove multiple entries without an ID"),
          st, 0⟩
    ∧ serviceCreateMany multi idField expiration select uuids items st
      = ⟨Except.error (Err.methodNotAllowed "Can not create multiple entries"), st, 0⟩ := by
  refine ⟨rfl, rfl, ?_⟩
  simp [serviceCreateMany, hmulti]

/-- Witness for C9 at concrete inputs with an empty allow-list. -/
theorem c9_null_id_and_multi_guards_witness :
    _patch "uuid" none false [] none noFaults emptyStore none []
      = ⟨Except.error (Err.methodNotAllowed "Cannot patch multiple entries without an ID"),
          emptyStore, 0⟩
    ∧ _remove "uuid" [] none noFaults emptyStore none
      = ⟨Except.error (Err.methodNotAllowed "Cannot remove multiple entries without an ID"),
          emptyStore, 0⟩
    ∧ serviceCreateMany [] "uuid" none none ["u1"] [[("name", J.str "A")]] emptyStore
      = ⟨Except.error (Err.methodNotAllowed "Can not create multiple entries"),
          emptyStore, 0⟩ :=
  c9_null_id_and_multi_guards "uuid" none false [] none noFaults emptyStore []
    [] ["u1"] [[("name", J.str "A")]] (List.not_mem_nil "create")

/-- Claim C10: the multi allow-list is enforced only in the public
create wrapper.  When create is not in the allow-list the service
wrapper fails before any store access, while the internal _create on
the same list input succeeds, returns every built record, and writes
every item to the store under its generated uuid; _create takes no
allow-list input at all. -/
theorem c10_internal_create_bypasses_allowlist (multi : List String) (idField : String)
    (expiration : Option Nat) (uuids : List String) (items : List Rec) (st : RedisStore)
    (hmulti : "create" ∉ multi)
    (hlen : uuids.length = items.length) (hnd : uuids.Nodup) :
    serviceCreateMany multi idField expiration none uuids items st
      = ⟨Except.error (Err.methodNotAllowed "Can not create multiple entries"), st, 0⟩
    ∧ (_createMany idField expiration none uuids items st).result
      = Except.ok ((uuids.zip items).map (fun p => buildCreateRec idField p.1 p.2))
    ∧ ((uuids.zip items).map (fun p => buildCreateRec idField p.1 p.2)).length = items.length
    ∧ ∀ u it, (u, it) ∈ uuids.zip items →
        fetchRec (_createMany idField expiration none uuids items st).store u
          = buildCreateRec idField u it := by
  refine ⟨?_, ?_, ?_, ?_⟩
  · simp [serviceCreateMany, hmulti]
  · simp [_createMany, projectRec, List.map_map]
  · simp [List.length_zip, hlen]
  · intro u it hm
    have hsavedkeys : (((uuids.zip items).map
        (fun p => (p.1, buildCreateRec idField p.1 p.2))).map Prod.fst) = uuids := by
      rw [List.map_map]
      have hcomp : (Prod.fst ∘ fun p : String × Rec => (p.1, buildCreateRec idField p.1 p.2))
          = Prod.fst := rfl
      rw [hcomp]
      exact List.map_fst_zip uuids items (le_of_eq hlen)
    have hmem : (u, buildCreateRec idField u it) ∈ (uuids.zip items).map
        (fun p => (p.1, buildCreateRec idField p.1 p.2)) :=
      List.mem_map_of_mem (fun p => (p.1, buildCreateRec idField p.1 p.2)) hm
    refine saveAll_fetch_mem _ st u (buildCreateRec idField u it) ?_ hmem
    rw [hsavedkeys]
    exact hnd

/-- Witness for C10: empty allow-list, two items, concrete store. -/
theorem c10_internal_create_bypasses_allowlist_witness :
    serviceCreateMany [] "uuid" none none ["u1", "u2"]
        [[("name", J.str "A")], [("name", J.str "B")]] emptyStore
      = ⟨Except.error (Err.methodNotAllowed "Can not create multiple entries"),
          emptyStore, 0⟩
    ∧ fetchRec (_createMany "uuid" none none ["u1", "u2"]
        [[("name", J.str "A")], [("name", J.str "B")]] emptyStore).store "u2"
      = [("uuid", J.str "u2"), ("name", J.str "B")] := by
  have h := c10_internal_create_bypasses_allowlist [] "uuid" none ["u1", "u2"]
    [[("name", J.str "A")], [("name", J.str "B")]] emptyStore
    (List.not_mem_nil "create") rfl (by decide)
  refine ⟨h.1, ?_⟩
  rw [h.2.2.2 "u2" [("name", J.str "B")] (List.Mem.tail _ (List.Mem.head _))]
  rfl

end FeathersRedis
